import Mathlib

/-!
Shallow embedding of the episode-management core of
`src/turtlebot4_rl/turtlebot4_rl/nav_env.py` (class `TurtleBotNavEnv`) and
proofs about it.  Python floats are modelled as real numbers, NumPy 2-vectors
as pairs of reals, counters as naturals and flags as booleans.  Each
definition mirrors one method (or one inlined block) of the source; line
references point into `nav_env.py`.
-/

namespace TurtleBotNavEnv

/-- A 2-D position, modelling a NumPy `[x, y]` float array. -/
abbrev Vec2 := ℝ × ℝ

/-- Euclidean norm of the difference of two 2-vectors: `np.linalg.norm (a - b)`. -/
noncomputable def dist2 (a b : Vec2) : ℝ :=
  Real.sqrt ((a.1 - b.1) ^ 2 + (a.2 - b.2) ^ 2)

/-- Python float modulo `a % b` for the divisor `b` we use (positive):
`a - b * floor (a / b)`. -/
noncomputable def fmod (a b : ℝ) : ℝ := a - b * (⌊a / b⌋ : ℝ)

/-- Yaw normalization from `odom_callback` (nav_env.py line 136):
`adjusted_yaw = (adjusted_yaw + math.pi) % (2 * math.pi) - math.pi`. -/
noncomputable def normalizeYaw (yaw : ℝ) : ℝ :=
  fmod (yaw + Real.pi) (2 * Real.pi) - Real.pi

/-- The desired yaw used at calibration (nav_env.py line 117):
`desired_yaw = -math.pi / 2`. -/
noncomputable def desired_yaw : ℝ := -(Real.pi / 2)

/-- A raw odometry sample as `odom_callback` reads it: position `x`, `y` and
the yaw already extracted from the quaternion (nav_env.py lines 96-107). -/
structure RawPose where
  x : ℝ
  y : ℝ
  yaw : ℝ

/-- The calibration offset computed from the first raw pose after reset
(nav_env.py lines 109-118): position offset = raw position minus start
position, yaw offset = desired yaw minus raw yaw. -/
structure CalibrationOffset where
  dx : ℝ
  dy : ℝ
  yaw_offset : ℝ

/-- The offset computation of the calibration branch of `odom_callback`
(nav_env.py lines 111-118). -/
def calibrateOffset (p : RawPose) (start : Vec2) (desired : ℝ) : CalibrationOffset :=
  { dx := p.x - start.1
    dy := p.y - start.2
    yaw_offset := desired - p.yaw }

/-- The calibrated branch of `odom_callback` (nav_env.py lines 128-137):
subtract the position offset, add the yaw offset, normalize the yaw. -/
noncomputable def applyOffset (p : RawPose) (off : CalibrationOffset) : Vec2 × ℝ :=
  ((p.x - off.dx, p.y - off.dy), normalizeYaw (p.yaw + off.yaw_offset))

/- Basic facts about `fmod` with a positive divisor. -/

lemma fmod_eq_mul_fract (a : ℝ) {b : ℝ} (hb : b ≠ 0) :
    fmod a b = b * Int.fract (a / b) := by
  unfold fmod
  rw [Int.fract, mul_sub, mul_div_cancel₀ a hb]

lemma fmod_nonneg (a : ℝ) {b : ℝ} (hb : 0 < b) : 0 ≤ fmod a b := by
  rw [fmod_eq_mul_fract a hb.ne']
  exact mul_nonneg hb.le (Int.fract_nonneg _)

lemma fmod_lt (a : ℝ) {b : ℝ} (hb : 0 < b) : fmod a b < b := by
  rw [fmod_eq_mul_fract a hb.ne']
  calc b * Int.fract (a / b) < b * 1 :=
        (mul_lt_mul_left hb).mpr (Int.fract_lt_one _)
    _ = b := mul_one b

lemma fmod_eq_self {a b : ℝ} (hb : 0 < b) (h0 : 0 ≤ a) (h1 : a < b) :
    fmod a b = a := by
  unfold fmod
  have hfloor : ⌊a / b⌋ = 0 := by
    rw [Int.floor_eq_zero_iff]
    constructor
    · exact div_nonneg h0 hb.le
    · rw [div_lt_one hb]; exact h1
  rw [hfloor]
  push_cast
  ring

lemma normalizeYaw_mem (y : ℝ) :
    -Real.pi ≤ normalizeYaw y ∧ normalizeYaw y < Real.pi := by
  unfold normalizeYaw
  have h2pi : 0 < 2 * Real.pi := Real.two_pi_pos
  have h0 := fmod_nonneg (y + Real.pi) h2pi
  have h1 := fmod_lt (y + Real.pi) h2pi
  constructor <;> linarith

lemma normalizeYaw_eq_self {y : ℝ} (h0 : -Real.pi ≤ y) (h1 : y < Real.pi) :
    normalizeYaw y = y := by
  unfold normalizeYaw
  have h2pi : 0 < 2 * Real.pi := Real.two_pi_pos
  rw [fmod_eq_self h2pi (by linarith) (by linarith)]
  ring

lemma normalizeYaw_pi : normalizeYaw Real.pi = -Real.pi := by
  unfold normalizeYaw fmod
  have h2pi : (2 * Real.pi) ≠ 0 := Real.two_pi_pos.ne'
  have : Real.pi + Real.pi = 2 * Real.pi := by ring
  rw [this, div_self h2pi]
  norm_num

/-- C3 (the claim as stated is false): the normalized yaw of `π` is `-π`,
which is not in the claimed interval `(-π, π]`, and normalization does not
fix `π` although `π` lies in `(-π, π]`. -/
theorem normalizeYaw_claim_counterexample :
    normalizeYaw Real.pi = -Real.pi ∧
      ¬ (-Real.pi < normalizeYaw Real.pi) ∧
      normalizeYaw Real.pi ≠ Real.pi := by
  refine ⟨normalizeYaw_pi, ?_, ?_⟩
  · rw [normalizeYaw_pi]; exact lt_irrefl _
  · rw [normalizeYaw_pi]
    intro h
    have hpi := Real.pi_pos
    nlinarith [h]

/-- C3 (amended): the yaw-normalization function maps every real yaw into
the half-open interval `[-π, π)` (closed at `-π`, open at `π`), and it is
idempotent on that interval: a yaw already in `[-π, π)` is returned
unchanged. -/
theorem normalizeYaw_range_and_idem (θ : ℝ)
    (h0 : -Real.pi ≤ θ) (h1 : θ < Real.pi) :
    (∀ y : ℝ, -Real.pi ≤ normalizeYaw y ∧ normalizeYaw y < Real.pi) ∧
      normalizeYaw θ = θ :=
  ⟨fun y => normalizeYaw_mem y, normalizeYaw_eq_self h0 h1⟩

/-- Witness for C3 (amended) at the concrete yaw `0`. -/
theorem normalizeYaw_range_and_idem_witness :
    (∀ y : ℝ, -Real.pi ≤ normalizeYaw y ∧ normalizeYaw y < Real.pi) ∧
      normalizeYaw 0 = 0 :=
  normalizeYaw_range_and_idem 0 (by nlinarith [Real.pi_pos]) Real.pi_pos

/- Constants fixed in `__init__` (nav_env.py lines 37-75) and in
`_is_done` / `_is_collision` (lines 290, 302, 314). -/

/-- Observation length declared by the observation space (nav_env.py line 39). -/
def observation_shape : ℕ := 640

/-- Limit on steps without improvement (nav_env.py line 57). -/
def max_steps_without_improvement : ℕ := 10000

/-- Stationary-movement threshold (nav_env.py line 67). -/
noncomputable def stationary_threshold : ℝ := 0.01

/-- Maximum allowed stationary steps before penalty (nav_env.py line 68). -/
def max_stationary_steps : ℕ := 100

/-- Weight for distance improvement (nav_env.py line 71). -/
noncomputable def alpha : ℝ := 10000.0

/-- Weight for distance regression (nav_env.py line 72). -/
noncomputable def beta : ℝ := 10000.0

/-- Collision penalty (nav_env.py line 73). -/
noncomputable def collision_penalty : ℝ := 100.0

/-- Per-step penalty (nav_env.py line 74). -/
noncomputable def step_penalty : ℝ := 0.1

/-- Stationary penalty (nav_env.py line 75). -/
noncomputable def stationary_penalty : ℝ := 50.0

/-- Collision threshold of `_is_collision` (nav_env.py line 314). -/
noncomputable def collision_threshold : ℝ := 0.5

/-- Goal-reached threshold of `_is_done` (nav_env.py line 290). -/
noncomputable def goal_reached_threshold : ℝ := 0.5

/-- Collision limit of `_is_done` (nav_env.py line 302). -/
def collision_limit : ℕ := 10

/-- The mutable fields of `TurtleBotNavEnv` that the episode core reads and
writes (nav_env.py lines 47-84).  `scan` is `self.state` (the most recent
LiDAR ranges, `None` before the first sample). -/
structure EnvState where
  scan : Option (List ℝ)
  start_position : Vec2
  goal_position : Vec2
  current_position : Vec2
  current_yaw : ℝ
  last_distance_to_goal : ℝ
  best_distance_to_goal : ℝ
  steps_since_improvement : ℕ
  steps_of_improvement : ℕ
  done : Bool
  collision : Bool
  collision_count : ℕ
  previous_position : Vec2
  stationary_steps : ℕ
  odom_position_offset : Vec2
  yaw_offset : ℝ
  odom_calibrated : Bool

/-- The EpisodeState aggregate of the spec (section 3): last distance-to-goal,
best distance-to-goal, steps-since-improvement, stationary-step counter,
collision flag, collision count, done flag. -/
structure EpisodeState where
  last_distance_to_goal : ℝ
  best_distance_to_goal : ℝ
  steps_since_improvement : ℕ
  stationary_steps : ℕ
  collision : Bool
  collision_count : ℕ
  done : Bool

/-- Projection of the environment fields onto the EpisodeState aggregate. -/
def episodeState (s : EnvState) : EpisodeState :=
  { last_distance_to_goal := s.last_distance_to_goal
    best_distance_to_goal := s.best_distance_to_goal
    steps_since_improvement := s.steps_since_improvement
    stationary_steps := s.stationary_steps
    collision := s.collision
    collision_count := s.collision_count
    done := s.done }

/-- `odom_callback` (nav_env.py lines 93-137): on the first sample after a
reset it computes the calibration offsets, latches `odom_calibrated` and
snaps the pose to the start position with the desired yaw; afterwards it
applies the stored offsets to every sample and normalizes the yaw. -/
noncomputable def odomCallback (s : EnvState) (p : RawPose) : EnvState :=
  if s.odom_calibrated = false then
    let off := calibrateOffset p s.start_position desired_yaw
    { s with
        odom_position_offset := (off.dx, off.dy)
        yaw_offset := off.yaw_offset
        odom_calibrated := true
        current_position := s.start_position
        current_yaw := desired_yaw }
  else
    let applied := applyOffset p
      { dx := s.odom_position_offset.1
        dy := s.odom_position_offset.2
        yaw_offset := s.yaw_offset }
    { s with
        current_position := applied.1
        current_yaw := applied.2 }

/-- The collision predicate of `_is_collision` (nav_env.py line 316):
`(self.state is not None) and (np.min(self.state) < collision_threshold)`.
`np.min` of the (never empty in practice) scan is the list minimum; an empty
scan is treated as no reading. -/
noncomputable def collisionDetected (scan : Option (List ℝ)) : Bool :=
  match scan with
  | none => false
  | some l =>
    match l.min? with
    | none => false
    | some m => decide (m < collision_threshold)

/-- `_is_collision` (nav_env.py lines 309-323): recompute the collision flag
from the scan, increment the collision count on a rising edge (previously
not colliding, now colliding), store the flag, return it. -/
noncomputable def isCollision (s : EnvState) : Bool × EnvState :=
  let collision := collisionDetected s.scan
  let count :=
    if !s.collision && collision then s.collision_count + 1 else s.collision_count
  (collision, { s with collision := collision, collision_count := count })

/-- `_calculate_reward` (nav_env.py lines 230-279), in statement order:
distance delta reward, best-distance/improvement trackers, collision
penalty via `_is_collision`, unconditional step penalty, stationary
tracking, then the previous-position and last-distance updates. -/
noncomputable def calculateReward (s : EnvState) : ℝ × EnvState :=
  let distance_to_goal := dist2 s.goal_position s.current_position
  let delta_distance := s.last_distance_to_goal - distance_to_goal
  let reward0 : ℝ :=
    if delta_distance > 0 then alpha * delta_distance else beta * delta_distance
  let s1 :=
    if distance_to_goal < s.best_distance_to_goal then
      { s with
          best_distance_to_goal := distance_to_goal
          steps_since_improvement := 0
          steps_of_improvement := s.steps_of_improvement + 1 }
    else
      { s with
          steps_since_improvement := s.steps_since_improvement + 1
          steps_of_improvement := 0 }
  let cs := isCollision s1
  let reward1 := if cs.1 then reward0 - collision_penalty else reward0
  let s2 := cs.2
  let reward2 := reward1 - step_penalty
  let position_change := dist2 s2.current_position s2.previous_position
  let rs3 :=
    if position_change < stationary_threshold then
      (if s2.stationary_steps + 1 > max_stationary_steps then
        (reward2 - stationary_penalty, { s2 with stationary_steps := 0 })
      else
        (reward2, { s2 with stationary_steps := s2.stationary_steps + 1 }))
    else
      (reward2, { s2 with stationary_steps := 0 })
  (rs3.1,
    { rs3.2 with
        previous_position := rs3.2.current_position
        last_distance_to_goal := distance_to_goal })

/-- The reason attached to each terminating branch of `_is_done`
(nav_env.py lines 281-307): the branch that fires is identified by the log
message it prints. -/
inductive DoneReason where
  | goalReached
  | stagnation
  | tooManyCollisions
  deriving DecidableEq

/-- `_is_done` (nav_env.py lines 281-307), with its branch order: goal
reached, then stagnation, then too many collisions, else the stored done
flag.  The middle component names the branch that fired, if any. -/
noncomputable def isDone (s : EnvState) : Bool × Option DoneReason × EnvState :=
  if dist2 s.goal_position s.current_position < goal_reached_threshold then
    (true, some DoneReason.goalReached, { s with done := true })
  else if s.steps_since_improvement > max_steps_without_improvement then
    (true, some DoneReason.stagnation, { s with done := true })
  else if s.collision_count > collision_limit then
    (true, some DoneReason.tooManyCollisions, { s with done := true })
  else
    (s.done, none, s)

/-- `_get_state` (nav_env.py lines 223-228): the held scan, or a zero vector
of the observation-space shape when no scan was ever received. -/
def getState (scan : Option (List ℝ)) : List ℝ :=
  match scan with
  | none => List.replicate observation_shape 0
  | some l => l

/-- A velocity command as `_take_action` fills it: the `twist.linear.x` and
`twist.angular.z` fields of the published message (all other fields zero). -/
structure TwistCmd where
  linear_x : ℝ
  angular_z : ℝ

/-- The discrete branch of `_take_action` (nav_env.py lines 200-208). -/
noncomputable def discreteTwist (action : ℕ) : TwistCmd :=
  if action = 0 then { linear_x := 0.5, angular_z := 0 }
  else if action = 1 then { linear_x := 0, angular_z := 0.5 }
  else if action = 2 then { linear_x := 0, angular_z := -0.5 }
  else if action = 3 then { linear_x := -0.5, angular_z := 0 }
  else { linear_x := 0, angular_z := 0 }

/-- The continuous branch of `_take_action` (nav_env.py lines 209-212):
`linear, angular = action; msg.twist.linear.x = float(linear);
msg.twist.angular.z = float(angular)` — a direct copy of both components. -/
def continuousTwist (linear angular : ℝ) : TwistCmd :=
  { linear_x := linear, angular_z := angular }

/-- Action-space bounds declared for continuous mode (nav_env.py line 35):
`Box(low=[-3.0, -1.5], high=[3.0, 1.5])`. -/
noncomputable def action_low : Vec2 := (-3.0, -1.5)

/-- Upper action-space bounds for continuous mode (nav_env.py line 35). -/
noncomputable def action_high : Vec2 := (3.0, 1.5)

/-- Modelled from the spec (section 4.3): a continuous command with each
component independently clamped to its configured bound, the behaviour the
spec ascribes to the dispatcher.  Used only to compare against the source's
`continuousTwist`. -/
noncomputable def continuousTwistSpec (linear angular : ℝ) : TwistCmd :=
  { linear_x := max action_low.1 (min action_high.1 linear)
    angular_z := max action_low.2 (min action_high.2 angular) }

/-- Errors the episode API raises (nav_env.py lines 168 and 179: the
`RuntimeError` on a LiDAR timeout in `reset` and `step`). -/
inductive EnvError where
  | observationTimeout
  deriving DecidableEq

/-- `step` (nav_env.py lines 172-190).  `_wait_for_new_state` is modelled by
the `freshScan` argument: `some sc` means a new scan `sc` arrived before the
deadline, `none` means the deadline elapsed.  The returned state is the
environment as of the return — or as of the raise, for the timeout branch
(`_take_action` only publishes a command, mutating no environment field). -/
noncomputable def stepExec (s : EnvState) (freshScan : Option (List ℝ)) :
    Except EnvError (List ℝ × ℝ × Bool × Bool) × EnvState :=
  match freshScan with
  | none => (Except.error EnvError.observationTimeout, s)
  | some sc =>
    let s0 := { s with scan := some sc }
    let rs := calculateReward s0
    let ds := isDone rs.2
    (Except.ok (getState ds.2.2.scan, rs.1, ds.1, false), ds.2.2)

/-- `reset` (nav_env.py lines 144-170).  The field assignments follow the
source's statement order; `_reset_robot_position` / `_calibrate_odom`
(lines 158, 336-383) are modelled by running `odomCallback` on `calibPose`,
the first raw pose sample after the world reset, with the calibration latch
cleared (line 370).  `freshScan` models `_wait_for_new_state` as in
`stepExec`; on `none` the returned state is the environment as of the
raise. -/
noncomputable def resetExec (s : EnvState) (calibPose : RawPose)
    (freshScan : Option (List ℝ)) :
    Except EnvError (List ℝ) × EnvState :=
  let s1 := { s with
      steps_since_improvement := 0
      steps_of_improvement := 0
      best_distance_to_goal := dist2 s.goal_position s.start_position
      done := false
      collision := false
      collision_count := 0 }
  let s2 := odomCallback { s1 with odom_calibrated := false } calibPose
  let s3 := { s2 with
      scan := none
      previous_position := s2.start_position
      last_distance_to_goal := dist2 s2.goal_position s2.current_position
      stationary_steps := 0 }
  match freshScan with
  | none => (Except.error EnvError.observationTimeout, s3)
  | some sc => (Except.ok (getState (some sc)), { s3 with scan := some sc })

/-- Iterated `_is_collision` over a list of arriving scans: each scan is
stored in the buffer and `_is_collision` is run once, as one call per step
does inside `_calculate_reward`. -/
noncomputable def runScans (s : EnvState) (scans : List (List ℝ)) : EnvState :=
  scans.foldl (fun st sc => (isCollision { st with scan := some sc }).2) s

/-- The scan sequence of the collision scenario: minimum range below the
threshold for 3 consecutive steps, above it for 1 step, below it again. -/
noncomputable def collisionScenarioScans : List (List ℝ) :=
  [[0.1], [0.1], [0.1], [1.0], [0.1]]

/- Characterization lemmas for `calculateReward`, proved once and shared. -/

lemma calculateReward_reward_eq (s : EnvState) :
    (calculateReward s).1 =
      (if s.last_distance_to_goal - dist2 s.goal_position s.current_position > 0
        then alpha * (s.last_distance_to_goal - dist2 s.goal_position s.current_position)
        else beta * (s.last_distance_to_goal - dist2 s.goal_position s.current_position))
      - (if collisionDetected s.scan then collision_penalty else 0)
      - step_penalty
      - (if dist2 s.current_position s.previous_position < stationary_threshold
            ∧ s.stationary_steps + 1 > max_stationary_steps
          then stationary_penalty else 0) := by
  unfold calculateReward isCollision
  dsimp only
  split_ifs <;> simp_all

lemma calculateReward_stationary_eq (s : EnvState) :
    (calculateReward s).2.stationary_steps =
      if dist2 s.current_position s.previous_position < stationary_threshold then
        (if s.stationary_steps + 1 > max_stationary_steps then 0
          else s.stationary_steps + 1)
      else 0 := by
  unfold calculateReward isCollision
  dsimp only
  split_ifs <;> simp_all

lemma calculateReward_collision_eq (s : EnvState) :
    (calculateReward s).2.collision_count =
        (if !s.collision && collisionDetected s.scan then s.collision_count + 1
          else s.collision_count)
      ∧ (calculateReward s).2.collision = collisionDetected s.scan := by
  unfold calculateReward isCollision
  dsimp only
  split_ifs <;> simp_all

lemma isCollision_count_eq (s : EnvState) :
    (isCollision s).2.collision_count =
        s.collision_count + (if !s.collision && collisionDetected s.scan then 1 else 0)
      ∧ (isCollision s).2.collision = collisionDetected s.scan := by
  unfold isCollision
  dsimp only
  split_ifs <;> simp_all

/-- C6: on every step, with delta the previous minus the current distance to
goal, the base reward is `alpha * delta` when `delta > 0` and `beta * delta`
otherwise, the collision and stationary penalties enter as their own terms,
and the fixed step penalty is subtracted unconditionally; a negative delta
lands in the `beta` branch and, `beta` being positive, yields a negative
base reward. -/
theorem reward_base_and_step_penalty (s : EnvState) :
    (calculateReward s).1 =
        (if s.last_distance_to_goal - dist2 s.goal_position s.current_position > 0
          then alpha * (s.last_distance_to_goal - dist2 s.goal_position s.current_position)
          else beta * (s.last_distance_to_goal - dist2 s.goal_position s.current_position))
        - (if collisionDetected s.scan then collision_penalty else 0)
        - step_penalty
        - (if dist2 s.current_position s.previous_position < stationary_threshold
              ∧ s.stationary_steps + 1 > max_stationary_steps
            then stationary_penalty else 0)
      ∧ (s.last_distance_to_goal - dist2 s.goal_position s.current_position < 0 →
          (if s.last_distance_to_goal - dist2 s.goal_position s.current_position > 0
            then alpha * (s.last_distance_to_goal - dist2 s.goal_position s.current_position)
            else beta * (s.last_distance_to_goal - dist2 s.goal_position s.current_position))
            = beta * (s.last_distance_to_goal - dist2 s.goal_position s.current_position)
          ∧ beta * (s.last_distance_to_goal - dist2 s.goal_position s.current_position) < 0) := by
  refine ⟨calculateReward_reward_eq s, fun hneg => ?_⟩
  have hnotpos : ¬ s.last_distance_to_goal - dist2 s.goal_position s.current_position > 0 := by
    linarith
  refine ⟨if_neg hnotpos, ?_⟩
  have hbeta : (0:ℝ) < beta := by norm_num [beta]
  exact mul_neg_of_pos_of_neg hbeta hneg

/-- C7: when the position change is below the stationary threshold the
counter increments; on the step where the incremented counter exceeds the
cap the stationary penalty is subtracted exactly once and the counter
resets to zero; when movement at or above the threshold is detected the
counter resets to zero and no stationary penalty is subtracted. -/
theorem stationary_penalty_once_and_reset (s : EnvState) :
    let change := dist2 s.current_position s.previous_position
    let other :=
      (if s.last_distance_to_goal - dist2 s.goal_position s.current_position > 0
        then alpha * (s.last_distance_to_goal - dist2 s.goal_position s.current_position)
        else beta * (s.last_distance_to_goal - dist2 s.goal_position s.current_position))
      - (if collisionDetected s.scan then collision_penalty else 0)
      - step_penalty
    (change < stationary_threshold ∧ s.stationary_steps + 1 > max_stationary_steps →
        (calculateReward s).1 = other - stationary_penalty
          ∧ (calculateReward s).2.stationary_steps = 0)
      ∧ (change < stationary_threshold ∧ s.stationary_steps + 1 ≤ max_stationary_steps →
          (calculateReward s).1 = other
            ∧ (calculateReward s).2.stationary_steps = s.stationary_steps + 1)
      ∧ (stationary_threshold ≤ change →
          (calculateReward s).1 = other
            ∧ (calculateReward s).2.stationary_steps = 0) := by
  dsimp only
  have hr := calculateReward_reward_eq s
  have hs := calculateReward_stationary_eq s
  refine ⟨fun h => ?_, fun h => ?_, fun h => ?_⟩
  · rw [hr, hs]
    rw [if_pos h, if_pos h.1, if_pos h.2]
    exact ⟨rfl, rfl⟩
  · have hnot : ¬ s.stationary_steps + 1 > max_stationary_steps := not_lt.mpr h.2
    have hcond : ¬ (dist2 s.current_position s.previous_position < stationary_threshold
        ∧ s.stationary_steps + 1 > max_stationary_steps) := fun hc => hnot hc.2
    rw [hr, hs]
    rw [if_neg hcond, if_pos h.1, if_neg hnot]
    exact ⟨by ring, rfl⟩
  · have hnot : ¬ dist2 s.current_position s.previous_position < stationary_threshold :=
      not_lt.mpr h
    have hcond : ¬ (dist2 s.current_position s.previous_position < stationary_threshold
        ∧ s.stationary_steps + 1 > max_stationary_steps) := fun hc => hnot hc.1
    rw [hr, hs]
    rw [if_neg hcond, if_neg hnot]
    exact ⟨by ring, rfl⟩

/-- C10: the stationary-step counter stays at or below the configured
maximum across a completed reward computation: if it is at most the maximum
before the call, it is again at most the maximum after. -/
theorem stationary_steps_bounded (s : EnvState)
    (h : s.stationary_steps ≤ max_stationary_steps) :
    (calculateReward s).2.stationary_steps ≤ max_stationary_steps := by
  rw [calculateReward_stationary_eq s]
  split_ifs with h1 h2
  · exact Nat.zero_le _
  · exact not_lt.mp h2
  · exact Nat.zero_le _

/- Concrete example states used to instantiate theorems with hypotheses. -/

/-- A concrete environment state with every numeric field zero. -/
noncomputable def baseState : EnvState :=
  { scan := none
    start_position := (0, 0)
    goal_position := (0, 0)
    current_position := (0, 0)
    current_yaw := 0
    last_distance_to_goal := 0
    best_distance_to_goal := 0
    steps_since_improvement := 0
    steps_of_improvement := 0
    done := false
    collision := false
    collision_count := 0
    previous_position := (0, 0)
    stationary_steps := 0
    odom_position_offset := (0, 0)
    yaw_offset := 0
    odom_calibrated := false }

/-- A state at the goal that has also exceeded the collision limit. -/
noncomputable def exGoalState : EnvState :=
  { baseState with collision_count := 11, odom_calibrated := true }

/-- A state with nonzero episode counters, about to be reset. -/
noncomputable def exPreResetState : EnvState :=
  { baseState with collision_count := 5, stationary_steps := 7, done := true }

/-- A state with a mid-range stationary counter. -/
noncomputable def exStatState : EnvState :=
  { baseState with stationary_steps := 3 }

/-- A concrete raw pose sample. -/
noncomputable def exPose : RawPose := { x := 1, y := 2, yaw := 3 }

/-- C5: the collision count increments exactly on a rising edge — when the
stored flag says the previous step was not colliding and the current scan is
colliding — and never otherwise; and over the scenario scans (3 colliding
steps, 1 clear step, colliding again) the count grows by exactly 2. -/
theorem collision_count_rising_edge (s : EnvState) :
    ((isCollision s).2.collision_count =
        s.collision_count + (if !s.collision && collisionDetected s.scan then 1 else 0))
      ∧ (isCollision s).2.collision = collisionDetected s.scan
      ∧ (runScans { s with collision := false } collisionScenarioScans).collision_count
          = s.collision_count + 2 := by
  refine ⟨(isCollision_count_eq s).1, (isCollision_count_eq s).2, ?_⟩
  unfold runScans collisionScenarioScans
  norm_num [isCollision, collisionDetected, List.min?, collision_threshold]

/-- C4: whenever the current distance to goal is below the 0.5 threshold,
`_is_done` takes the goal-reached branch — terminating with reason
`GoalReached` and setting the done flag — no matter the collision count or
any other field. -/
theorem done_goal_priority (s : EnvState)
    (h : dist2 s.goal_position s.current_position < goal_reached_threshold) :
    isDone s = (true, some DoneReason.goalReached, { s with done := true }) := by
  unfold isDone
  rw [if_pos h]

/-- Witness for C4 at a concrete state at the goal whose collision count, 11,
exceeds the collision limit of 10. -/
theorem done_goal_priority_witness :
    exGoalState.collision_count > collision_limit ∧
      isDone exGoalState =
        (true, some DoneReason.goalReached, { exGoalState with done := true }) := by
  constructor
  · norm_num [exGoalState, baseState, collision_limit]
  · refine done_goal_priority exGoalState ?_
    have h0 : dist2 exGoalState.goal_position exGoalState.current_position = 0 := by
      simp [dist2, exGoalState, baseState]
    rw [h0]
    norm_num [goal_reached_threshold]

/-- C2: calibrating on a raw pose sample and applying the resulting offset
to that same sample anchors it exactly: the episode-local position is the
start position and the yaw is the desired yaw; equally, running
`odom_callback` twice on the same sample from an uncalibrated state leaves
the current pose at the start position with the desired yaw. -/
theorem calibration_anchors_first_sample (p : RawPose) (start : Vec2) :
    applyOffset p (calibrateOffset p start desired_yaw) = (start, desired_yaw)
      ∧ (∀ s : EnvState, s.odom_calibrated = false →
          (odomCallback (odomCallback s p) p).current_position = s.start_position
            ∧ (odomCallback (odomCallback s p) p).current_yaw = desired_yaw) := by
  have hyaw : ∀ y : ℝ, normalizeYaw (y + (desired_yaw - y)) = desired_yaw := by
    intro y
    have harg : y + (desired_yaw - y) = desired_yaw := by ring
    rw [harg]
    have hpi := Real.pi_pos
    exact normalizeYaw_eq_self (by unfold desired_yaw; linarith)
      (by unfold desired_yaw; linarith)
  constructor
  · unfold applyOffset calibrateOffset
    dsimp only
    rw [hyaw p.yaw]
    have h1 : p.x - (p.x - start.1) = start.1 := by ring
    have h2 : p.y - (p.y - start.2) = start.2 := by ring
    rw [h1, h2]
  · intro s hs
    have hdes : normalizeYaw desired_yaw = desired_yaw := by
      have hpi := Real.pi_pos
      exact normalizeYaw_eq_self (by unfold desired_yaw; linarith)
        (by unfold desired_yaw; linarith)
    simp [odomCallback, calibrateOffset, applyOffset, hs, hyaw, hdes, sub_sub_cancel]

/-- C9: reading the state while no range sample was ever received returns a
zero vector whose length is the declared observation shape, 640. -/
theorem empty_buffer_state_zeros :
    getState none = List.replicate observation_shape 0
      ∧ (getState none).length = observation_shape
      ∧ observation_shape = 640
      ∧ ∀ x ∈ getState none, x = 0 := by
  refine ⟨rfl, by simp [getState], rfl, ?_⟩
  intro x hx
  exact List.eq_of_mem_replicate hx

/-- C1 (amended): with a stalled observation buffer, `step` and `reset` both
raise the observation timeout; `step` leaves the whole environment — in
particular the EpisodeState aggregate — unchanged, while `reset` has already
re-initialized the EpisodeState aggregate before its wait, so after a
timed-out `reset` the aggregate holds the freshly reset values (counters
zero, flags cleared, both distances re-anchored to the start-to-goal
distance), not its pre-call values. -/
theorem timeout_effects_on_episode_state (s : EnvState) (p : RawPose) :
    (stepExec s none).1 = Except.error EnvError.observationTimeout
      ∧ (stepExec s none).2 = s
      ∧ (resetExec s p none).1 = Except.error EnvError.observationTimeout
      ∧ episodeState (resetExec s p none).2 =
          { last_distance_to_goal := dist2 s.goal_position s.start_position
            best_distance_to_goal := dist2 s.goal_position s.start_position
            steps_since_improvement := 0
            stationary_steps := 0
            collision := false
            collision_count := 0
            done := false } := by
  refine ⟨rfl, rfl, rfl, ?_⟩
  unfold resetExec odomCallback episodeState calibrateOffset
  simp

/-- C1 (the claim as stated is false): from a state whose collision count is
5, a `reset` with a stalled observation buffer raises the timeout, yet the
EpisodeState aggregate after the call differs from its value before the
call — the collision count has been zeroed. -/
theorem reset_timeout_mutation_counterexample :
    (resetExec exPreResetState exPose none).1 = Except.error EnvError.observationTimeout
      ∧ (episodeState exPreResetState).collision_count = 5
      ∧ (episodeState (resetExec exPreResetState exPose none).2).collision_count = 0
      ∧ episodeState (resetExec exPreResetState exPose none).2
          ≠ episodeState exPreResetState := by
  refine ⟨rfl, rfl, ?_, ?_⟩
  · unfold resetExec odomCallback episodeState calibrateOffset
    simp
  · intro h
    have hc := congrArg EpisodeState.collision_count h
    have h0 : (episodeState (resetExec exPreResetState exPose none).2).collision_count = 0 := by
      unfold resetExec odomCallback episodeState calibrateOffset
      simp
    rw [h0] at hc
    have h5 : (episodeState exPreResetState).collision_count = 5 := rfl
    rw [h5] at hc
    exact absurd hc (by norm_num)

/-- C8 (the claim as stated is false): in continuous mode the emitted
command is not clamped — the action `(4, 2)` is outside both configured
bounds, yet the emitted command carries 4 and 2 unchanged, and differs from
the spec's clamped command. -/
theorem continuous_clamp_counterexample :
    (continuousTwist 4 2).linear_x = 4
      ∧ ¬ ((continuousTwist 4 2).linear_x ≤ action_high.1)
      ∧ (continuousTwist 4 2).angular_z = 2
      ∧ ¬ ((continuousTwist 4 2).angular_z ≤ action_high.2)
      ∧ continuousTwist 4 2 ≠ continuousTwistSpec 4 2 := by
  refine ⟨rfl, ?_, rfl, ?_, ?_⟩
  · norm_num [continuousTwist, action_high]
  · norm_num [continuousTwist, action_high]
  · intro h
    have hc := congrArg TwistCmd.linear_x h
    have h3 : (continuousTwistSpec 4 2).linear_x = 3 := by
      unfold continuousTwistSpec action_low action_high
      norm_num
    rw [h3] at hc
    have h4 : (continuousTwist 4 2).linear_x = 4 := rfl
    rw [h4] at hc
    exact absurd hc (by norm_num)

/-- C8 (amended): in continuous mode the emitted command copies each action
component unchanged — no clamping is applied in `_take_action` — so for an
action already inside the declared bounds the emitted command coincides with
the spec's clamped command. -/
theorem continuous_action_copied (lin ang : ℝ)
    (h1 : action_low.1 ≤ lin) (h2 : lin ≤ action_high.1)
    (h3 : action_low.2 ≤ ang) (h4 : ang ≤ action_high.2) :
    continuousTwist lin ang = { linear_x := lin, angular_z := ang }
      ∧ continuousTwist lin ang = continuousTwistSpec lin ang := by
  refine ⟨rfl, ?_⟩
  unfold continuousTwist continuousTwistSpec
  rw [min_eq_right h2, max_eq_right h1, min_eq_right h4, max_eq_right h3]

/-- Witness for C8 (amended) at the in-bounds action `(0, 0)`. -/
theorem continuous_action_copied_witness :
    continuousTwist 0 0 = { linear_x := 0, angular_z := 0 }
      ∧ continuousTwist 0 0 = continuousTwistSpec 0 0 :=
  continuous_action_copied 0 0
    (by norm_num [action_low]) (by norm_num [action_high])
    (by norm_num [action_low]) (by norm_num [action_high])

/-- Witness for C10 at a concrete state with stationary counter 3. -/
theorem stationary_steps_bounded_witness :
    (calculateReward exStatState).2.stationary_steps ≤ max_stationary_steps :=
  stationary_steps_bounded exStatState
    (by norm_num [exStatState, baseState, max_stationary_steps])

end TurtleBotNavEnv
